import Mathlib

/-!
Shallow embedding of `app/api/video_stream.py` from open-event-server.

The module implements permission-checked CRUD hooks for the VideoStream
resource.  Database rows are modelled as lists of records in an `Env`;
the current user's capabilities are modelled by the boolean predicate
`is_coorganizer` carried in the environment, and raised Python
exceptions become `Except ApiError` results.
-/

namespace VideoStreamApi

/-- Errors surfaced by the hooks.  `forbidden`, `conflict` and
`objectNotFound` mirror the exception classes raised in the source;
`notFound` is the failure of the `safe_query_kwargs` lookup helper;
`unprocessable` is the failure of `require_exclusive_relationship`;
`keyError` is Python's `KeyError`, raised by `set().pop()` on an empty
set. -/
inductive ApiError where
  | forbidden (pointer : String) (message : String)
  | conflict (pointer : String) (message : String)
  | objectNotFound (parameter : String) (message : String)
  | notFound (parameter : String) (message : String)
  | unprocessable (message : String)
  | keyError
deriving DecidableEq, Repr

/-- A room (`Microlocation` row): belongs to one event, optionally
references a video stream (we keep the stream id). -/
structure Microlocation where
  id : Nat
  event_id : Nat
  video_stream : Option Nat
deriving DecidableEq, Repr

/-- A `VideoStream` row: optionally owned by one event, associated with
a list of rooms (we keep the room ids), with the per-request computed
visibility flag `user_can_access`. -/
structure VideoStream where
  id : Nat
  event_id : Option Nat
  rooms : List Nat
  user_can_access : Bool
deriving DecidableEq, Repr

/-- An `Event` row: id plus a human-readable identifier. -/
structure Event where
  id : Nat
  identifier : String
deriving DecidableEq, Repr

/-- The database tables together with the current user's
`is_coorganizer` capability (the `has_access` collaborator). -/
structure Env where
  microlocations : List Microlocation
  video_streams : List VideoStream
  events : List Event
  is_coorganizer : Nat → Bool

/-- The ForbiddenError raised by `check_event_access`. -/
def accessForbidden : ApiError :=
  ApiError.forbidden "/data/relationships/rooms"
    "You don\x27t have access to the provided event"

/-- The ForbiddenError raised by `check_same_event` when rooms span more
than one event. -/
def multipleEventsForbidden : ApiError :=
  ApiError.forbidden "/data/relationships/rooms"
    "Video Stream can only be created/edited with rooms of a single event"

/-- The ConflictError raised by `before_post` when the event already has
a stream. -/
def streamExistsConflict : ApiError :=
  ApiError.conflict "/data/relationships/event"
    "Video Stream for this event already exists"

/-- Python truthiness of an optional integer: `None` and `0` are falsy. -/
def truthyNat : Option Nat → Bool
  | none => false
  | some n => n != 0

/-- Python truthiness of an optional string: `None` and `""` are falsy. -/
def truthyStr : Option String → Bool
  | none => false
  | some s => !s.isEmpty

/-- Python truthiness of an optional list: `None` and `[]` are falsy. -/
def truthyList : Option (List Nat) → Bool
  | none => false
  | some l => !l.isEmpty

/-- Embeds `check_event_access(event_id)`: no-op on a falsy event id,
otherwise requires the `is_coorganizer` capability on that event. -/
def check_event_access (env : Env) (event_id : Option Nat) : Except ApiError Unit :=
  if truthyNat event_id = false then Except.ok ()
  else if env.is_coorganizer (event_id.getD 0) then Except.ok ()
  else Except.error accessForbidden

/-- Embeds `Microlocation.query.filter(Microlocation.id.in_(room_ids)).all()`:
the rooms of the table whose id occurs in `room_ids`. -/
def foundRooms (env : Env) (room_ids : List Nat) : List Microlocation :=
  env.microlocations.filter (fun r => decide (r.id ∈ room_ids))

/-- Embeds the loop of `check_same_event`: event ids are accumulated into
a set (here a duplicate-free list), failing as soon as the set holds more
than one element. -/
def collect_event_ids : List Microlocation → List Nat → Except ApiError (List Nat)
  | [], acc => Except.ok acc
  | room :: rest, acc =>
      let acc' := if room.event_id ∈ acc then acc else room.event_id :: acc
      if acc'.length > 1 then Except.error multipleEventsForbidden
      else collect_event_ids rest acc'

/-- Embeds `check_same_event(room_ids)`: looks up the rooms, collects
their event ids, fails Forbidden on more than one distinct event id, and
finally pops an element of the set — Python's `set().pop()` raises
`KeyError` when the set is empty — delegating it to `check_event_access`. -/
def check_same_event (env : Env) (room_ids : List Nat) : Except ApiError Unit :=
  match collect_event_ids (foundRooms env room_ids) [] with
  | Except.error e => Except.error e
  | Except.ok [] => Except.error ApiError.keyError
  | Except.ok (e :: _) => check_event_access env (some e)

/-- Request payload for create and update: the `rooms` and `event`
relationships, each possibly absent. -/
structure StreamData where
  rooms : Option (List Nat) := none
  event : Option Nat := none
deriving DecidableEq, Repr

/-- Modelled from the spec: `require_exclusive_relationship` (helper in
`app/api/helpers/utilities`, not under src/) requires the payload to
specify exactly one of the listed relationships — at most one when
`optional` is set — and fails validation otherwise. -/
def require_exclusive_relationship (optional : Bool) (data : StreamData) : Except ApiError Unit :=
  let present := (if data.rooms.isSome then 1 else 0) + (if data.event.isSome then 1 else 0)
  if optional then
    if present > 1 then
      Except.error (ApiError.unprocessable "rooms and event are mutually exclusive")
    else Except.ok ()
  else
    if present = 1 then Except.ok ()
    else Except.error (ApiError.unprocessable "rooms and event are mutually exclusive")

/-- Embeds `VideoStreamList.before_post`: exclusivity of rooms/event,
the event-consistency guard when rooms are given, the access guard on a
given event, and the uniqueness (Conflict) check for the event. -/
def before_post (env : Env) (data : StreamData) : Except ApiError Unit :=
  (require_exclusive_relationship false data).bind fun _ =>
  (if truthyList data.rooms then check_same_event env (data.rooms.getD []) else Except.ok ()).bind fun _ =>
  (check_event_access env data.event).bind fun _ =>
  if truthyNat data.event then
    if env.video_streams.any (fun s => s.event_id == data.event) then
      Except.error streamExistsConflict
    else Except.ok ()
  else Except.ok ()

/-- The mutable `view_kwargs` dict of the detail handler, restricted to
the keys the hook reads and writes. -/
structure ViewKwargs where
  room_id : Option Nat := none
  event_identifier : Option String := none
  event_id : Option Nat := none
  id : Option Nat := none
deriving DecidableEq, Repr

/-- First block of `before_get_object`: on a truthy `room_id`, resolve
the room (`safe_query_kwargs`, modelled from the spec as find-or-NotFound)
and set `id` to the room's stream id, or to none when the room has no
stream (`room.video_stream and room.video_stream.id`). -/
def resolveByRoom (env : Env) (vk : ViewKwargs) : Except ApiError ViewKwargs :=
  if truthyNat vk.room_id then
    match env.microlocations.find? (fun r => vk.room_id == some r.id) with
    | none => Except.error (ApiError.notFound "room_id" "Object not found")
    | some room => Except.ok { vk with id := room.video_stream }
  else Except.ok vk

/-- Second block of `before_get_object`: on a truthy `event_identifier`,
resolve the event by identifier (`safe_query_kwargs`, modelled from the
spec as find-or-NotFound) and set `event_id` to its id. -/
def resolveByIdentifier (env : Env) (vk : ViewKwargs) : Except ApiError ViewKwargs :=
  if truthyStr vk.event_identifier then
    match env.events.find? (fun e => vk.event_identifier == some e.identifier) with
    | none => Except.error (ApiError.notFound "event_identifier" "Object not found")
    | some event => Except.ok { vk with event_id := some event.id }
  else Except.ok vk

/-- Third block of `before_get_object`: on a truthy `event_id`, resolve
the stream by event id (`safe_query_kwargs`, modelled from the spec as
find-or-NotFound) and set `id` to the stream's id. -/
def resolveByEventId (env : Env) (vk : ViewKwargs) : Except ApiError ViewKwargs :=
  if truthyNat vk.event_id then
    match env.video_streams.find? (fun s => s.event_id == vk.event_id) with
    | none => Except.error (ApiError.notFound "event_id" "Object not found")
    | some vs => Except.ok { vk with id := some vs.id }
  else Except.ok vk

/-- Embeds `VideoStreamDetail.before_get_object`: the three sequential
resolution blocks of the source, in source order, threading the mutated
`view_kwargs`. -/
def before_get_object (env : Env) (vk : ViewKwargs) : Except ApiError ViewKwargs :=
  (resolveByRoom env vk).bind fun vk1 =>
  (resolveByIdentifier env vk1).bind fun vk2 =>
  resolveByEventId env vk2

/-- Embeds `VideoStreamDetail.after_get_object`: a fetched stream whose
`user_can_access` flag is false is reported as ObjectNotFound. -/
def after_get_object (stream : Option VideoStream) : Except ApiError Unit :=
  match stream with
  | none => Except.ok ()
  | some s =>
      if s.user_can_access then Except.ok ()
      else Except.error (ApiError.objectNotFound "id"
        ("Video Stream: " ++ toString s.id ++ " not found"))

/-- Embeds `VideoStreamDetail.before_update_object`: optional
exclusivity, access checks on the current and the proposed event, then
the consistency guard over proposed plus existing room ids, skipped when
that list is empty. -/
def before_update_object (env : Env) (obj : VideoStream) (data : StreamData) :
    Except ApiError Unit :=
  (require_exclusive_relationship true data).bind fun _ =>
  (check_event_access env obj.event_id).bind fun _ =>
  (check_event_access env data.event).bind fun _ =>
  let room_ids := data.rooms.getD [] ++ obj.rooms
  if room_ids.isEmpty then Except.ok ()
  else check_same_event env room_ids

/-- Embeds `VideoStreamDetail.before_delete_object`: access check on the
object's current event, then the consistency guard over its existing
room ids, skipped when there are none. -/
def before_delete_object (env : Env) (obj : VideoStream) : Except ApiError Unit :=
  (check_event_access env obj.event_id).bind fun _ =>
  if obj.rooms.isEmpty then Except.ok ()
  else check_same_event env obj.rooms

/-- Spec-side restatement of the pre-update guard, written from the
spec's words: check access on the object's current event and on any
newly proposed event, then run the event-consistency guard over the
union of the newly proposed room ids and the object's existing room
ids, skipping the guard only when that union is empty.  Compared with
`before_update_object` in the refinement theorem for the pre-update
hook. -/
def updateGuardSpec (env : Env) (obj : VideoStream) (data : StreamData) :
    Except ApiError Unit :=
  (check_event_access env obj.event_id).bind fun _ =>
  (check_event_access env data.event).bind fun _ =>
  if (data.rooms.getD [] ++ obj.rooms).dedup = [] then Except.ok ()
  else check_same_event env ((data.rooms.getD [] ++ obj.rooms).dedup)

/-- Fixture: rooms 101 and 102 belong to event 5, room 201 to event 7;
the current user is coorganizer of event 5 only. -/
def envRooms : Env :=
  { microlocations :=
      [ { id := 101, event_id := 5, video_stream := none }
      , { id := 102, event_id := 5, video_stream := none }
      , { id := 201, event_id := 7, video_stream := none } ]
  , video_streams := []
  , events := []
  , is_coorganizer := fun e => e == 5 }

/-- Fixture: event 5 already has a video stream; the user is
coorganizer of event 5. -/
def envWithStream : Env :=
  { microlocations := []
  , video_streams := [ { id := 1, event_id := some 5, rooms := [], user_can_access := true } ]
  , events := []
  , is_coorganizer := fun e => e == 5 }

/-- Fixture: empty database; the user is coorganizer of event 5. -/
def envNoStream : Env :=
  { microlocations := [], video_streams := [], events := []
  , is_coorganizer := fun e => e == 5 }

/-- Fixture for id resolution: room 42 of event 3 carries stream 7;
event 3 has identifier "expo" and owns stream 9. -/
def envResolve : Env :=
  { microlocations := [ { id := 42, event_id := 3, video_stream := some 7 } ]
  , video_streams :=
      [ { id := 7, event_id := none, rooms := [42], user_can_access := true }
      , { id := 9, event_id := some 3, rooms := [], user_can_access := true } ]
  , events := [ { id := 3, identifier := "expo" } ]
  , is_coorganizer := fun _ => true }

/-- Fixture: a stream the current user may not see. -/
def streamHidden : VideoStream :=
  { id := 11, event_id := some 2, rooms := [], user_can_access := false }

/-- Fixture: the stream of event 9, with rooms 301 and 302. -/
def obj9 : VideoStream :=
  { id := 4, event_id := some 9, rooms := [301, 302], user_can_access := true }

/-- Fixture: rooms 301 and 302 belong to event 9, whose stream is
`obj9`; the user is coorganizer of event 9. -/
def envDelete : Env :=
  { microlocations :=
      [ { id := 301, event_id := 9, video_stream := some 4 }
      , { id := 302, event_id := 9, video_stream := some 4 } ]
  , video_streams := [obj9]
  , events := []
  , is_coorganizer := fun e => e == 9 }

/-! Supporting lemmas about the two guards. -/

theorem collect_event_ids_all_eq (rs : List Microlocation) (e : Nat)
    (h : ∀ r ∈ rs, r.event_id = e) :
    collect_event_ids rs [e] = Except.ok [e] := by
  induction rs with
  | nil => rfl
  | cons r rest ih =>
      have hr : r.event_id = e := h r (List.mem_cons_self r rest)
      have hrest : ∀ r' ∈ rest, r'.event_id = e :=
        fun r' h' => h r' (List.mem_cons_of_mem _ h')
      simp [collect_event_ids, hr, ih hrest]

theorem collect_event_ids_nonempty_eq (rs : List Microlocation) (e : Nat)
    (hne : rs ≠ []) (h : ∀ r ∈ rs, r.event_id = e) :
    collect_event_ids rs [] = Except.ok [e] := by
  cases rs with
  | nil => exact absurd rfl hne
  | cons r rest =>
      have hr : r.event_id = e := h r (List.mem_cons_self r rest)
      have hrest : ∀ r' ∈ rest, r'.event_id = e :=
        fun r' h' => h r' (List.mem_cons_of_mem _ h')
      simp [collect_event_ids, hr, collect_event_ids_all_eq rest e hrest]

theorem collect_event_ids_singleton_ne (rs : List Microlocation) (e : Nat)
    (h : ∃ r ∈ rs, r.event_id ≠ e) :
    collect_event_ids rs [e] = Except.error multipleEventsForbidden := by
  induction rs with
  | nil =>
      rcases h with ⟨r, hr, _⟩
      cases hr
  | cons r rest ih =>
      by_cases hre : r.event_id = e
      · rcases h with ⟨r0, hr0, hne⟩
        rcases List.mem_cons.mp hr0 with h0 | h0
        · subst h0; exact absurd hre hne
        · simp only [collect_event_ids, hre]
          simp [ih ⟨r0, h0, hne⟩]
      · simp [collect_event_ids, hre]

theorem collect_event_ids_mixed (rs : List Microlocation)
    (h : ∃ r ∈ rs, ∃ r' ∈ rs, r.event_id ≠ r'.event_id) :
    collect_event_ids rs [] = Except.error multipleEventsForbidden := by
  cases rs with
  | nil =>
      rcases h with ⟨r, hr, _⟩
      cases hr
  | cons r rest =>
      have hstep : collect_event_ids (r :: rest) [] = collect_event_ids rest [r.event_id] := by
        simp [collect_event_ids]
      rw [hstep]
      rcases h with ⟨a, ha, b, hb, hab⟩
      rcases List.mem_cons.mp ha with h1 | h1 <;> rcases List.mem_cons.mp hb with h2 | h2
      · subst h1; subst h2; exact absurd rfl hab
      · subst h1
        exact collect_event_ids_singleton_ne rest a.event_id ⟨b, h2, fun hx => hab hx.symm⟩
      · subst h2
        exact collect_event_ids_singleton_ne rest b.event_id ⟨a, h1, hab⟩
      · by_cases hae : a.event_id = r.event_id
        · exact collect_event_ids_singleton_ne rest r.event_id
            ⟨b, h2, fun hx => hab (hae.trans hx.symm)⟩
        · exact collect_event_ids_singleton_ne rest r.event_id ⟨a, h1, hae⟩

theorem check_same_event_single_event (env : Env) (ids : List Nat) (E : Nat)
    (hne : foundRooms env ids ≠ [])
    (hall : ∀ r ∈ foundRooms env ids, r.event_id = E) :
    check_same_event env ids = check_event_access env (some E) := by
  unfold check_same_event
  rw [collect_event_ids_nonempty_eq _ E hne hall]

theorem check_event_access_coorganizer (env : Env) (E : Nat)
    (hco : env.is_coorganizer E = true) :
    check_event_access env (some E) = Except.ok () := by
  by_cases hE : E = 0
  · simp [check_event_access, truthyNat, hE]
  · simp [check_event_access, truthyNat, hE, hco]

theorem check_event_access_forbidden_iff (env : Env) (E : Nat) (hE : E ≠ 0) :
    check_event_access env (some E) = Except.error accessForbidden ↔
      env.is_coorganizer E = false := by
  cases hco : env.is_coorganizer E with
  | true => simp [check_event_access, truthyNat, hE, hco]
  | false => simp [check_event_access, truthyNat, hE, hco]

theorem foundRooms_dedup (env : Env) (l : List Nat) :
    foundRooms env l.dedup = foundRooms env l := by
  unfold foundRooms
  apply List.filter_congr
  intro r _
  simp [List.mem_dedup]

theorem check_same_event_dedup (env : Env) (l : List Nat) :
    check_same_event env l.dedup = check_same_event env l := by
  unfold check_same_event
  rw [foundRooms_dedup]

theorem foundRooms_append_unknown (env : Env) (ids extra : List Nat)
    (hextra : ∀ x ∈ extra, ∀ r ∈ env.microlocations, r.id ≠ x) :
    foundRooms env (ids ++ extra) = foundRooms env ids := by
  unfold foundRooms
  apply List.filter_congr
  intro r hr
  have hnotin : r.id ∉ extra := fun hx => hextra r.id hx r hr rfl
  simp [List.mem_append, hnotin]

/-! Claim theorems. -/

/-- Claim C1: for every collection of room ids whose rooms all belong to
exactly one event E (a genuine event id, hence nonzero — Python treats
id 0 as falsy/absent), `check_same_event` raises ForbiddenError iff the
requesting user lacks the `is_coorganizer` capability on E; the single
remaining event id is delegated to `check_event_access`. -/
theorem c1_single_event_forbidden_iff (env : Env) (ids : List Nat) (E : Nat)
    (hne : foundRooms env ids ≠ [])
    (hall : ∀ r ∈ foundRooms env ids, r.event_id = E)
    (hE : E ≠ 0) :
    (∃ p m, check_same_event env ids = Except.error (ApiError.forbidden p m)) ↔
      env.is_coorganizer E = false := by
  rw [check_same_event_single_event env ids E hne hall]
  cases hco : env.is_coorganizer E with
  | true => simp [check_event_access_coorganizer env E hco]
  | false =>
      constructor
      · intro _; rfl
      · intro _
        refine ⟨"/data/relationships/rooms",
          "You don\x27t have access to the provided event", ?_⟩
        simp [check_event_access, truthyNat, hE, hco, accessForbidden]

theorem c1_witness :
    (∃ p m, check_same_event envRooms [101, 102] = Except.error (ApiError.forbidden p m)) ↔
      envRooms.is_coorganizer 5 = false :=
  c1_single_event_forbidden_iff envRooms [101, 102] 5 (by decide) (by decide) (by decide)

/-- Claim C2: whenever the rooms found for the given ids span more than
one distinct event id, `check_same_event` raises ForbiddenError with
pointer /data/relationships/rooms, regardless of the user's access. -/
theorem c2_mixed_events_forbidden (env : Env) (ids : List Nat)
    (h : ∃ r ∈ foundRooms env ids, ∃ r' ∈ foundRooms env ids,
      r.event_id ≠ r'.event_id) :
    check_same_event env ids = Except.error multipleEventsForbidden := by
  unfold check_same_event
  rw [collect_event_ids_mixed _ h]

theorem c2_witness :
    check_same_event envRooms [101, 102, 201] = Except.error multipleEventsForbidden :=
  c2_mixed_events_forbidden envRooms [101, 102, 201] (by decide)

/-- Claim C3 counterexample: `check_same_event` on the empty collection
does not return normally — Python's `set().pop()` on the empty event-id
set raises KeyError — here shown in the empty database. -/
theorem c3_counterexample :
    check_same_event envNoStream [] = Except.error ApiError.keyError := rfl

/-- Claim C3 (amended): `check_same_event` called with an empty
collection of room ids is not a no-op: in every environment it raises
the KeyError from popping the empty event-id set.  Every caller in the
module guards the call with a non-emptiness test. -/
theorem c3_amended_empty_raises (env : Env) :
    check_same_event env [] = Except.error ApiError.keyError := by
  simp [check_same_event, foundRooms, collect_event_ids]

/-- Claim C4: when a create request specifies event e (rooms absent, as
exclusivity requires) and the user holds coorganizer access on e,
`before_post` raises ConflictError with pointer
/data/relationships/event exactly when a VideoStream for that event
already exists, and raises nothing when none exists. -/
theorem c4_before_post_conflict (env : Env) (data : StreamData) (e : Nat)
    (hrooms : data.rooms = none) (hevent : data.event = some e)
    (hne : e ≠ 0) (hco : env.is_coorganizer e = true) :
    (env.video_streams.any (fun s => s.event_id == some e) = true →
      before_post env data = Except.error streamExistsConflict) ∧
    (env.video_streams.any (fun s => s.event_id == some e) = false →
      before_post env data = Except.ok ()) := by
  constructor <;> intro hex <;>
    simp [before_post, require_exclusive_relationship, check_event_access,
      truthyList, truthyNat, hrooms, hevent, hne, hco, hex, Except.bind]

theorem c4_witness :
    before_post envWithStream { rooms := none, event := some 5 } =
      Except.error streamExistsConflict ∧
    before_post envNoStream { rooms := none, event := some 5 } = Except.ok () :=
  ⟨(c4_before_post_conflict envWithStream { rooms := none, event := some 5 } 5
      rfl rfl (by decide) (by decide)).1 (by decide),
   (c4_before_post_conflict envNoStream { rooms := none, event := some 5 } 5
      rfl rfl (by decide) (by decide)).2 (by decide)⟩

/-- Claim C5: a fetched stream whose computed `user_can_access` flag is
false makes `after_get_object` raise ObjectNotFound — the same error
kind as for a missing object — so the stream data is never returned. -/
theorem c5_hidden_stream_not_found (s : VideoStream)
    (h : s.user_can_access = false) :
    after_get_object (some s) = Except.error (ApiError.objectNotFound "id"
      ("Video Stream: " ++ toString s.id ++ " not found")) := by
  simp [after_get_object, h]

theorem c5_witness :
    after_get_object (some streamHidden) = Except.error (ApiError.objectNotFound "id"
      ("Video Stream: " ++ toString streamHidden.id ++ " not found")) :=
  c5_hidden_stream_not_found streamHidden rfl

/-- Claim C6: `check_event_access` with an absent event id returns
without performing an access check and without failing. -/
theorem c6_absent_event_no_fail (env : Env) :
    check_event_access env none = Except.ok () := rfl

/-- Claim C7: the pre-update hook refines the spec-side description —
after the optional exclusivity check it checks coorganizer access on the
object's current event id and on any newly proposed event id, then runs
the event-consistency guard over the union (duplicate-free) of the newly
proposed room ids and the object's existing room ids, skipping the guard
exactly when that union is empty. -/
theorem c7_before_update_refines_spec (env : Env) (obj : VideoStream)
    (data : StreamData) :
    before_update_object env obj data =
      (require_exclusive_relationship true data).bind fun _ =>
        updateGuardSpec env obj data := by
  have htail :
      (if (data.rooms.getD [] ++ obj.rooms).isEmpty then (Except.ok () : Except ApiError Unit)
        else check_same_event env (data.rooms.getD [] ++ obj.rooms)) =
      (if (data.rooms.getD [] ++ obj.rooms).dedup = [] then (Except.ok () : Except ApiError Unit)
        else check_same_event env ((data.rooms.getD [] ++ obj.rooms).dedup)) := by
    by_cases hl : data.rooms.getD [] ++ obj.rooms = []
    · simp [hl]
    · have h1 : (data.rooms.getD [] ++ obj.rooms).isEmpty = false := by
        simp [List.isEmpty_iff, hl]
      have h2 : (data.rooms.getD [] ++ obj.rooms).dedup ≠ [] := by
        simpa [List.dedup_eq_nil] using hl
      simp [h1, h2, check_same_event_dedup]
  simp only [before_update_object, updateGuardSpec, htail]

/-- Claim C8: the pre-fetch id resolution applies its three addressing
strategies in the fixed order room_id, event_identifier, event_id:
(a) with only a room_id present, the target id becomes the room's
associated stream id (none when the room has no stream); (b) a present
event_identifier resolves to the event's id, which then resolves the
target stream id; (c) with both room_id and event_id present, the
event_id step overwrites the id set by the room_id step. -/
theorem c8_resolution_order (env : Env) (vk : ViewKwargs) :
    (∀ room, truthyNat vk.room_id = true →
      env.microlocations.find? (fun r => vk.room_id == some r.id) = some room →
      truthyStr vk.event_identifier = false → truthyNat vk.event_id = false →
      before_get_object env vk = Except.ok { vk with id := room.video_stream }) ∧
    (∀ event vs, truthyNat vk.room_id = false →
      truthyStr vk.event_identifier = true →
      env.events.find? (fun e => vk.event_identifier == some e.identifier) = some event →
      event.id ≠ 0 →
      env.video_streams.find? (fun s => s.event_id == some event.id) = some vs →
      before_get_object env vk =
        Except.ok { vk with event_id := some event.id, id := some vs.id }) ∧
    (∀ room vs, truthyNat vk.room_id = true →
      env.microlocations.find? (fun r => vk.room_id == some r.id) = some room →
      truthyStr vk.event_identifier = false → truthyNat vk.event_id = true →
      env.video_streams.find? (fun s => s.event_id == vk.event_id) = some vs →
      before_get_object env vk = Except.ok { vk with id := some vs.id }) := by
  refine ⟨?_, ?_, ?_⟩
  · intro room h1 hfind h3 h4
    simp [before_get_object, resolveByRoom, resolveByIdentifier, resolveByEventId,
      h1, hfind, h3, h4, Except.bind]
  · intro event vs h1 h2 hfind hne hfind2
    have h4 : truthyNat (some event.id) = true := by simp [truthyNat, hne]
    simp [before_get_object, resolveByRoom, resolveByIdentifier, resolveByEventId,
      h1, h2, hfind, h4, hfind2, Except.bind]
  · intro room vs h1 hfind h3 h4 hfind2
    simp [before_get_object, resolveByRoom, resolveByIdentifier, resolveByEventId,
      h1, hfind, h3, h4, hfind2, Except.bind]

theorem c8_witness :
    before_get_object envResolve { room_id := some 42 } =
      Except.ok { room_id := some 42, id := some 7 } ∧
    before_get_object envResolve { event_identifier := some "expo" } =
      Except.ok { event_identifier := some "expo", event_id := some 3, id := some 9 } ∧
    before_get_object envResolve { room_id := some 42, event_id := some 3 } =
      Except.ok { room_id := some 42, event_id := some 3, id := some 9 } :=
  ⟨(c8_resolution_order envResolve { room_id := some 42 }).1
      { id := 42, event_id := 3, video_stream := some 7 }
      (by decide) rfl (by decide) (by decide),
   (c8_resolution_order envResolve { event_identifier := some "expo" }).2.1
      { id := 3, identifier := "expo" }
      { id := 9, event_id := some 3, rooms := [], user_can_access := true }
      (by decide) (by decide) rfl (by decide) rfl,
   (c8_resolution_order envResolve { room_id := some 42, event_id := some 3 }).2.2
      { id := 42, event_id := 3, video_stream := some 7 }
      { id := 9, event_id := some 3, rooms := [], user_can_access := true }
      (by decide) rfl (by decide) (by decide) rfl⟩

/-- Claim C9: a stream whose event id is E and whose rooms (possibly
none) all belong to event E passes both pre-delete guards when the
requesting user holds coorganizer access on E: the hook raises no
exception. -/
theorem c9_delete_coorganizer_ok (env : Env) (obj : VideoStream) (E : Nat)
    (hev : obj.event_id = some E)
    (hco : env.is_coorganizer E = true)
    (hall : ∀ r ∈ foundRooms env obj.rooms, r.event_id = E)
    (hfound : obj.rooms ≠ [] → foundRooms env obj.rooms ≠ []) :
    before_delete_object env obj = Except.ok () := by
  unfold before_delete_object
  rw [hev, check_event_access_coorganizer env E hco]
  by_cases hr : obj.rooms = []
  · simp [hr, Except.bind]
  · have hfr : foundRooms env obj.rooms ≠ [] := hfound hr
    have hcs : check_same_event env obj.rooms = Except.ok () := by
      rw [check_same_event_single_event env obj.rooms E hfr hall]
      exact check_event_access_coorganizer env E hco
    have hie : obj.rooms.isEmpty = false := by
      cases hx : obj.rooms with
      | nil => exact absurd hx hr
      | cons a l => rfl
    simp [Except.bind, hie, hcs]

theorem c9_witness : before_delete_object envDelete obj9 = Except.ok () :=
  c9_delete_coorganizer_ok envDelete obj9 9 rfl (by decide) (by decide) (by decide)

/-- Claim C10: `check_same_event` silently ignores room ids matching no
existing room — appending such ids to any collection neither errors
about the unknown ids nor changes the outcome, the access decision
included. -/
theorem c10_unknown_ids_ignored (env : Env) (ids extra : List Nat)
    (hextra : ∀ x ∈ extra, ∀ r ∈ env.microlocations, r.id ≠ x) :
    check_same_event env (ids ++ extra) = check_same_event env ids := by
  unfold check_same_event
  rw [foundRooms_append_unknown env ids extra hextra]

theorem c10_witness :
    check_same_event envRooms ([101, 102] ++ [999]) =
      check_same_event envRooms [101, 102] :=
  c10_unknown_ids_ignored envRooms [101, 102] [999] (by decide)

end VideoStreamApi
